import Mathlib

/-!
Verification of the altitude-estimation and flight-control core of the
scarecrow_drone repository, shallowly embedded in Lean 4.

Times are passed explicitly (the Python code reads `time.time()`); machine
floats become exact rationals.
-/

set_option maxHeartbeats 1000000

namespace ScarecrowDrone

/-- State of `AltitudeFilter` (`drone_scripts/autonomous_flight.py` lines 19-28,
duplicated in `drone_scripts/stream_altitude.py` lines 31-40). Fields keep the
source names: `altitude` is the filtered altitude, `velocity` the smoothed
vertical velocity, `stationary_count` the consecutive-stationary-tick counter. -/
structure AltitudeFilter where
  altitude : ℚ
  velocity : ℚ
  last_update : Option ℚ
  stationary_count : ℕ
  home_altitude : Option ℚ
  last_raw_alt : Option ℚ
deriving Repr, DecidableEq

/-- The initial state, from `AltitudeFilter.__init__`. -/
def AltitudeFilter.init : AltitudeFilter :=
  { altitude := 0, velocity := 0, last_update := none,
    stationary_count := 0, home_altitude := none, last_raw_alt := none }

/-- Predicate `AltitudeFilter.is_stationary`: the source tests
`abs(sqrt(ax^2+ay^2+az^2) - 9.8) < 0.5`. Since both sides are nonnegative this
is equivalent to `9.3 < sqrt(s) < 10.3`, i.e. `9.3^2 < s < 10.3^2` for
`s = ax^2+ay^2+az^2`; we use the squared form to stay in exact rational
arithmetic. -/
def is_stationary (ax ay az : ℚ) : Bool :=
  decide ((86.49 : ℚ) < ax ^ 2 + ay ^ 2 + az ^ 2
          ∧ ax ^ 2 + ay ^ 2 + az ^ 2 < (106.09 : ℚ))

/-- The method `AltitudeFilter.update` (`autonomous_flight.py` lines 38-84 =
`stream_altitude.py` lines 50-96). `now` is the `time.time()` read at entry.
Returns the reported altitude together with the updated filter state. -/
def AltitudeFilter.update (s : AltitudeFilter) (now : ℚ) (raw_altitude : Option ℚ)
    (ax ay az : ℚ) : ℚ × AltitudeFilter :=
  match s.home_altitude, raw_altitude with
  | none, some raw =>
      -- Initialize home altitude on first reading
      (0, { s with home_altitude := some raw, altitude := 0,
                   last_raw_alt := some raw, last_update := some now })
  | _, none =>
      (s.altitude, s)
  | some home, some raw =>
      let relative_alt := raw - home
      let cnt := if is_stationary ax ay az then s.stationary_count + 1 else 0
      let s1 :=
        if 3 ≤ cnt then
          -- stationary for 3+ readings: reset drift
          { s with stationary_count := cnt,
                   altitude := s.altitude * 0.95 + relative_alt * 0.05,
                   velocity := 0 }
        else
          match s.last_update, s.last_raw_alt with
          | some lu, some lra =>
              let dt := now - lu
              if 0 < dt ∧ dt < 1 then
                let raw_velocity := (raw - lra) / dt
                if |raw_velocity| < 5 then
                  let v := s.velocity * 0.8 + raw_velocity * 0.2
                  let a := s.altitude + v * dt
                  { s with stationary_count := cnt, velocity := v,
                           altitude := a * 0.9 + relative_alt * 0.1 }
                else
                  { s with stationary_count := cnt }
              else
                { s with stationary_count := cnt }
          | _, _ => { s with stationary_count := cnt }
      let s2 := { s1 with last_raw_alt := some raw, last_update := some now }
      (s2.altitude, s2)

/-- One telemetry tick as fed to the filter: a timestamp, an optional raw
altitude and the accelerometer triple. -/
structure Sample where
  t : ℚ
  raw : Option ℚ
  ax : ℚ
  ay : ℚ
  az : ℚ
deriving Repr, DecidableEq

/-- Run the filter over a list of samples, returning the final state. -/
def runFilter (s : AltitudeFilter) (l : List Sample) : AltitudeFilter :=
  l.foldl (fun st x => (st.update x.t x.raw x.ax x.ay x.az).2) s

/-- Run the filter over a list of samples, collecting the returned altitudes. -/
def runOutputs (s : AltitudeFilter) : List Sample → List ℚ
  | [] => []
  | x :: xs =>
      let r := s.update x.t x.raw x.ax x.ay x.az
      r.1 :: runOutputs r.2 xs

/-- Shift every present raw altitude of a sample by a constant. -/
def shiftSample (c : ℚ) (x : Sample) : Sample :=
  { x with raw := x.raw.map (fun r => r + c) }

/-- Shift the absolute-altitude fields of a filter state by a constant; the
relative fields (`altitude`, `velocity`) are untouched. -/
def shiftState (c : ℚ) (s : AltitudeFilter) : AltitudeFilter :=
  { s with home_altitude := s.home_altitude.map (fun r => r + c),
           last_raw_alt := s.last_raw_alt.map (fun r => r + c) }

/-- Fallback of `get_imu_data` when no IMU message is available
(`autonomous_flight.py` line 104, `stream_altitude.py` line 137):
`return 0.0, 0.0, 9.8  # Default to stationary`. -/
def imu_default : ℚ × ℚ × ℚ := (0, 0, 9.8)

/- ----------------------------------------------------------------
Safety watchdog of `scarecrow-drone/drone_scripts/start_flight.py`.
---------------------------------------------------------------- -/

/-- Constant `MAX_FLIGHT_TIME = 10` (`start_flight.py` line 24). -/
def MAX_FLIGHT_TIME : ℚ := 10

/-- The externally visible steps of `force_kill_motors` and of the watchdog
branch (`start_flight.py` lines 41-49 and 52-79). -/
inductive KillAction
  | setThrottleMin
  | clearRCOverrides
  | forceDisarm
  | exitProcess
deriving Repr, DecidableEq

/-- The function `force_kill_motors` (`start_flight.py` lines 52-79): throttle to minimum,
clear all RC overrides by sending zeros, forced disarm. -/
def force_kill_sequence : List KillAction :=
  [KillAction.setThrottleMin, KillAction.clearRCOverrides, KillAction.forceDisarm]

/-- One iteration of `watchdog_timer` (`start_flight.py` lines 33-49).
`script_start_time` is set only after arming succeeds (`main`, line 413);
while it is `None` the body does nothing. When `elapsed >= MAX_FLIGHT_TIME`
the thread runs `force_kill_motors()` and then `os._exit(0)`. The returned
value is the list of actions the check performs, `none` when it does not
trigger. -/
def watchdog_check (script_start_time : Option ℚ) (now : ℚ) : Option (List KillAction) :=
  match script_start_time with
  | none => none
  | some t0 =>
      if MAX_FLIGHT_TIME ≤ now - t0 then
        some (force_kill_sequence ++ [KillAction.exitProcess])
      else
        none

/- ----------------------------------------------------------------
Phase/throttle decision of `drone_scripts/autonomous_altitude_control.py`,
constants from `drone_scripts/flight_constants.py`.
---------------------------------------------------------------- -/

/-- Constant `HOVER_PWM = 1625` (`flight_constants.py` line 14). -/
def HOVER_PWM : ℤ := 1625

/-- Constant `CLIMB_PWM = 1630` (`flight_constants.py` line 17). -/
def CLIMB_PWM : ℤ := 1630

/-- Constant `LAND_PWM = 1510` (`flight_constants.py` line 20). -/
def LAND_PWM : ℤ := 1510

/-- Constant `ALTITUDE_TOLERANCE = 0.1` (`flight_constants.py` line 40). -/
def ALTITUDE_TOLERANCE : ℚ := 0.1

/-- Constant `DEFAULT_TARGET_ALTITUDE = 1.0` (`flight_constants.py` line 37). -/
def DEFAULT_TARGET_ALTITUDE : ℚ := 1

/-- The mode labels assigned by the main loop of
`autonomous_altitude_control.py`. -/
inductive ControlMode
  | CLIMBING
  | HOVERING
  | DESCENDING
deriving Repr, DecidableEq

/-- The throttle/mode decision of the main loop
(`autonomous_altitude_control.py` lines 236-247). The source compares against
the module constant `ALTITUDE_TOLERANCE`; the tolerance is a parameter here
and is instantiated with that constant where the loop is concerned. -/
def throttle_decision (relative_alt target_altitude tolerance : ℚ) : ℤ × ControlMode :=
  if relative_alt < target_altitude - tolerance then
    (CLIMB_PWM, ControlMode.CLIMBING)
  else if target_altitude + tolerance < relative_alt then
    (LAND_PWM, ControlMode.DESCENDING)
  else
    (HOVER_PWM, ControlMode.HOVERING)

/- ----------------------------------------------------------------
Hover-phase velocity correction of `drone_scripts/autonomous_flight.py`.
---------------------------------------------------------------- -/

/-- The hover-phase correction computed each tick of PHASE 2 of
`autonomous_flight` (`autonomous_flight.py` lines 352-358): zero inside the
0.05 m dead band, otherwise `max(-0.1, min(0.1, altitude_error * -0.5))`. -/
def hover_velocity_z (target_altitude current_alt : ℚ) : ℚ :=
  let altitude_error := target_altitude - current_alt
  if 0.05 < |altitude_error| then
    max (-0.1) (min 0.1 (altitude_error * (-0.5)))
  else
    0

/-- The full NED velocity command the hover loop sends
(`autonomous_flight.py` line 360): `send_ned_velocity(vehicle, 0, 0, velocity_z)`. -/
def hover_ned_command (target_altitude current_alt : ℚ) : ℚ × ℚ × ℚ :=
  (0, 0, hover_velocity_z target_altitude current_alt)

/-- Modelled from the spec (section 4.2): `clamp(-0.1, 0.1, x)` written as a
generic clamp; used only to compare the source's expression with the spec's. -/
def clamp (lo hi x : ℚ) : ℚ := max lo (min hi x)

/- ----------------------------------------------------------------
Streaming loop of `drone_scripts/stream_altitude.py`.
---------------------------------------------------------------- -/

/-- The mutable state of the main streaming loop
(`stream_altitude.py` lines 201-214): the filter and the
`consecutive_errors` counter. -/
structure StreamState where
  filt : AltitudeFilter
  consecutive_errors : ℕ
deriving Repr, DecidableEq

/-- What one pass of the streaming loop produces: a JSON record with the
reported altitude (and whether a raw reading was present), or the fatal
lost-connection exception. -/
inductive TickResult
  | report (altitude_meters : ℚ) (raw_present : Bool)
  | lostConnection
deriving Repr, DecidableEq

/-- Tick spacing: `time.sleep(1.0)` at the end of each loop pass
(`stream_altitude.py` line 239): ticks are one second apart. -/
def TICK_PERIOD : ℚ := 1

/-- One pass of the streaming loop (`stream_altitude.py` lines 204-231):
with a reading, run the filter and reset `consecutive_errors`; without one,
hold `altitude_filter.altitude` and increment the counter; then raise the
lost-connection exception when `consecutive_errors > 10`. -/
def stream_tick (st : StreamState) (x : Sample) : StreamState × TickResult :=
  match x.raw with
  | some _ =>
      let r := st.filt.update x.t x.raw x.ax x.ay x.az
      let st2 : StreamState := ⟨r.2, 0⟩
      if 10 < st2.consecutive_errors then (st2, TickResult.lostConnection)
      else (st2, TickResult.report r.1 true)
  | none =>
      let st2 : StreamState := ⟨st.filt, st.consecutive_errors + 1⟩
      if 10 < st2.consecutive_errors then (st2, TickResult.lostConnection)
      else (st2, TickResult.report st.filt.altitude false)

/-- Observable reactions of `stream_altitude` after the loop ends with an
exception. `commandLand` exists only so that the spec's claimed reaction can
be stated; the script never produces it. -/
inductive CleanupAction
  | emitErrorRecord
  | closeConnection
  | commandLand
deriving Repr, DecidableEq

/-- What `stream_altitude` does once the lost-connection exception escapes the
loop (`stream_altitude.py` lines 233-236 re-raise it, lines 244-256 print an
error record and close the connection). No actuator or landing command is
issued anywhere in the script. -/
def lost_connection_cleanup : List CleanupAction :=
  [CleanupAction.emitErrorRecord, CleanupAction.closeConnection]


/-- An absent reading returns the held estimate and changes nothing. -/
theorem update_absent (s : AltitudeFilter) (now ax ay az : ℚ) :
    s.update now none ax ay az = (s.altitude, s) := by
  obtain ⟨a, v, lu, cnt, home, lra⟩ := s
  cases home <;> rfl

/-- The first present reading seeds the filter. -/
theorem update_seed (s : AltitudeFilter) (hs : s.home_altitude = none)
    (now r ax ay az : ℚ) :
    s.update now (some r) ax ay az =
      (0, { s with home_altitude := some r, altitude := 0,
                   last_raw_alt := some r, last_update := some now }) := by
  obtain ⟨a, v, lu, cnt, home, lra⟩ := s
  cases hs
  rfl

/-- Once seeded, `home_altitude` never changes. -/
theorem update_home (s : AltitudeFilter) (h : ℚ) (hs : s.home_altitude = some h)
    (now : ℚ) (raw : Option ℚ) (ax ay az : ℚ) :
    ((s.update now raw ax ay az).2).home_altitude = some h := by
  obtain ⟨a, v, lu, cnt, home, lra⟩ := s
  cases hs
  cases raw with
  | none => rfl
  | some r =>
      simp only [AltitudeFilter.update]
      repeat' split
      all_goals rfl

/-- The drift-snap branch: a stationary sample on a seeded filter whose prior
stationary count is at least 2 blends the altitude and zeroes the velocity. -/
theorem update_snap (s : AltitudeFilter) (h : ℚ) (hs : s.home_altitude = some h)
    (now r ax ay az : ℚ) (hst : is_stationary ax ay az = true)
    (hcnt : 2 ≤ s.stationary_count) :
    s.update now (some r) ax ay az =
      (s.altitude * 0.95 + (r - h) * 0.05,
       { s with stationary_count := s.stationary_count + 1,
                altitude := s.altitude * 0.95 + (r - h) * 0.05,
                velocity := 0,
                last_raw_alt := some r, last_update := some now }) := by
  obtain ⟨a, v, lu, cnt, home, lra⟩ := s
  cases hs
  simp only [AltitudeFilter.update, hst, if_true]
  rw [if_pos (Nat.succ_le_succ hcnt)]

/-- A velocity-outlier sample (`|raw_velocity| >= 5`) in the moving branch
leaves `altitude` and `velocity` untouched; only the stationary counter and
the `last_*` bookkeeping fields change. -/
theorem update_spike (s : AltitudeFilter) (h lu0 lra0 : ℚ)
    (hs : s.home_altitude = some h) (hlu : s.last_update = some lu0)
    (hlra : s.last_raw_alt = some lra0)
    (now r ax ay az : ℚ)
    (hcnt : (if is_stationary ax ay az then s.stationary_count + 1 else 0) < 3)
    (hdt : 0 < now - lu0 ∧ now - lu0 < 1)
    (hv : 5 ≤ |(r - lra0) / (now - lu0)|) :
    s.update now (some r) ax ay az =
      (s.altitude,
       { s with
          stationary_count := if is_stationary ax ay az then s.stationary_count + 1 else 0,
          last_raw_alt := some r, last_update := some now }) := by
  obtain ⟨a, v, lu, cnt, home, lra⟩ := s
  cases hs; cases hlu; cases hlra
  simp only [AltitudeFilter.update]
  rw [if_neg (not_le.mpr hcnt), if_pos hdt, if_neg (not_lt.mpr hv)]

/-- Shifting all absolute altitudes by a constant commutes with `update`:
the reported altitude is unchanged and the state is shifted. -/
theorem update_shift (c : ℚ) (s : AltitudeFilter) (now : ℚ) (raw : Option ℚ)
    (ax ay az : ℚ) :
    (shiftState c s).update now (raw.map (fun r => r + c)) ax ay az =
      ((s.update now raw ax ay az).1,
       shiftState c (s.update now raw ax ay az).2) := by
  obtain ⟨a, v, lu, cnt, home, lra⟩ := s
  cases home with
  | none =>
      cases raw with
      | none => rfl
      | some r => simp [shiftState, AltitudeFilter.update]
  | some h =>
      cases raw with
      | none => rfl
      | some r =>
          simp only [shiftState, Option.map_some, Option.map_none, AltitudeFilter.update]
          have e1 : r + c - (h + c) = r - h := by ring
          by_cases h1 : 3 ≤ (if is_stationary ax ay az then cnt + 1 else 0)
          · simp [h1, e1]
          · cases lu with
            | none => simp [h1, e1]
            | some lu0 =>
                cases lra with
                | none => simp [h1, e1]
                | some lra0 =>
                    have e2 : r + c - (lra0 + c) = r - lra0 := by ring
                    by_cases h2 : lu0 < now ∧ now - lu0 < 1
                    · by_cases h3 : |(r - lra0) / (now - lu0)| < 5
                      · simp [h1, h2, h3, e1, e2]
                      · simp [h1, h2, h3, e1, e2]
                    · simp [h1, h2, e1, e2]

theorem runFilter_nil (s : AltitudeFilter) : runFilter s [] = s := rfl

theorem runFilter_cons (s : AltitudeFilter) (x : Sample) (l : List Sample) :
    runFilter s (x :: l) = runFilter ((s.update x.t x.raw x.ax x.ay x.az).2) l := rfl

theorem runOutputs_cons (s : AltitudeFilter) (x : Sample) (l : List Sample) :
    runOutputs s (x :: l) =
      (s.update x.t x.raw x.ax x.ay x.az).1 ::
        runOutputs (s.update x.t x.raw x.ax x.ay x.az).2 l := rfl

/-- A run of absent readings leaves any filter state unchanged. -/
theorem runFilter_absent (l : List Sample) (h : ∀ x ∈ l, x.raw = none) :
    ∀ s : AltitudeFilter, runFilter s l = s := by
  induction l with
  | nil => intro s; rfl
  | cons x xs ih =>
      intro s
      have hx : x.raw = none := h x (List.mem_cons_self x xs)
      rw [runFilter_cons, hx, update_absent]
      exact ih (fun y hy => h y (List.mem_cons_of_mem x hy)) s

/-- `home_altitude` is preserved by any run once seeded. -/
theorem runFilter_home (l : List Sample) :
    ∀ (s : AltitudeFilter) (h : ℚ), s.home_altitude = some h →
      (runFilter s l).home_altitude = some h := by
  induction l with
  | nil => intro s h hs; exact hs
  | cons x xs ih =>
      intro s h hs
      rw [runFilter_cons]
      exact ih _ h (update_home s h hs x.t x.raw x.ax x.ay x.az)

/-- Reachability invariant: a run from the initial state either never saw a
present reading (and is still the initial state) or has been seeded. -/
theorem runFilter_init_inv (l : List Sample) :
    runFilter AltitudeFilter.init l = AltitudeFilter.init ∨
      (runFilter AltitudeFilter.init l).home_altitude ≠ none := by
  induction l using List.reverseRecOn with
  | nil => left; rfl
  | append_singleton xs x ih =>
      rw [runFilter, List.foldl_append, List.foldl_cons, List.foldl_nil, ← runFilter]
      rcases ih with h1 | h2
      · rw [h1]
        cases hx : x.raw with
        | none => rw [update_absent]; left; rfl
        | some r =>
            right
            rw [update_seed AltitudeFilter.init rfl]
            simp
      · right
        obtain ⟨h, hh⟩ := Option.ne_none_iff_exists'.mp h2
        rw [update_home _ h hh]
        simp

/-- Before seeding, a run from the initial state is still the initial state. -/
theorem runFilter_init_none (l : List Sample)
    (h : (runFilter AltitudeFilter.init l).home_altitude = none) :
    runFilter AltitudeFilter.init l = AltitudeFilter.init := by
  rcases runFilter_init_inv l with h1 | h2
  · exact h1
  · exact absurd h h2

theorem shiftState_init (c : ℚ) : shiftState c AltitudeFilter.init = AltitudeFilter.init := rfl

/-- Shifting every raw reading by a constant leaves the whole output
trajectory unchanged. -/
theorem runOutputs_shift (c : ℚ) (l : List Sample) :
    ∀ s : AltitudeFilter,
      runOutputs (shiftState c s) (l.map (shiftSample c)) = runOutputs s l := by
  induction l with
  | nil => intro s; rfl
  | cons x xs ih =>
      intro s
      rw [List.map_cons, runOutputs_cons, runOutputs_cons]
      have hx : (shiftSample c x) = ⟨x.t, x.raw.map (fun r => r + c), x.ax, x.ay, x.az⟩ := rfl
      rw [hx]
      rw [show ((⟨x.t, x.raw.map (fun r => r + c), x.ax, x.ay, x.az⟩ : Sample).t) = x.t from rfl]
      rw [update_shift c s x.t x.raw x.ax x.ay x.az]
      exact congrArg _ (ih _)

/-- Shifting commutes with a whole run of the filter. -/
theorem runFilter_shift (c : ℚ) (l : List Sample) :
    ∀ s : AltitudeFilter,
      runFilter (shiftState c s) (l.map (shiftSample c)) = shiftState c (runFilter s l) := by
  induction l with
  | nil => intro s; rfl
  | cons x xs ih =>
      intro s
      rw [List.map_cons, runFilter_cons, runFilter_cons]
      have hx : (shiftSample c x) = ⟨x.t, x.raw.map (fun r => r + c), x.ax, x.ay, x.az⟩ := rfl
      rw [hx]
      rw [update_shift c s x.t x.raw x.ax x.ay x.az]
      exact ih _

/-- Iterating the drift-snap branch on a seeded, already-stationary filter:
the error to the constant relative reading `r` is exactly geometric with
ratio `0.95`, home is preserved and the velocity is pinned to zero. -/
theorem snap_iter (t ax ay az : ℚ) (hst : is_stationary ax ay az = true) (h r : ℚ) :
    ∀ (N : ℕ) (s : AltitudeFilter), s.home_altitude = some h → 2 ≤ s.stationary_count →
      (runFilter s (List.replicate N ⟨t, some (h + r), ax, ay, az⟩)).altitude - r
          = 0.95 ^ N * (s.altitude - r)
        ∧ (runFilter s (List.replicate N ⟨t, some (h + r), ax, ay, az⟩)).home_altitude = some h
        ∧ 2 ≤ (runFilter s (List.replicate N ⟨t, some (h + r), ax, ay, az⟩)).stationary_count
        ∧ (1 ≤ N → (runFilter s (List.replicate N ⟨t, some (h + r), ax, ay, az⟩)).velocity = 0) := by
  intro N
  induction N with
  | zero =>
      intro s hs hcnt
      exact ⟨by simp [runFilter], hs, hcnt, by omega⟩
  | succ n ih =>
      intro s hs hcnt
      have hstep :
          runFilter s (List.replicate (n + 1) (⟨t, some (h + r), ax, ay, az⟩ : Sample))
            = runFilter ((s.update t (some (h + r)) ax ay az).2)
                (List.replicate n (⟨t, some (h + r), ax, ay, az⟩ : Sample)) := by
        rw [List.replicate_succ, runFilter_cons]
      have hu := update_snap s h hs t (h + r) ax ay az hst hcnt
      rw [hstep, hu]
      have hrec := ih { s with stationary_count := s.stationary_count + 1,
                               altitude := s.altitude * 0.95 + (h + r - h) * 0.05,
                               velocity := 0,
                               last_raw_alt := some (h + r), last_update := some t }
        (by simp [hs]) (by simp; omega)
      refine ⟨?_, hrec.2.1, hrec.2.2.1, fun _ => ?_⟩
      · rw [hrec.1]
        simp only []
        ring
      · rcases Nat.eq_zero_or_pos n with rfl | hn
        · simp [runFilter]
        · exact hrec.2.2.2 hn

/-- On a seeded filter with a present reading, the stationary counter becomes
`count + 1` on a stationary sample and `0` otherwise, in every branch. -/
theorem update_count (s : AltitudeFilter) (h : ℚ) (hs : s.home_altitude = some h)
    (now r ax ay az : ℚ) :
    ((s.update now (some r) ax ay az).2).stationary_count
      = if is_stationary ax ay az then s.stationary_count + 1 else 0 := by
  obtain ⟨a, v, lu, cnt, home, lra⟩ := s
  cases hs
  simp only [AltitudeFilter.update]
  repeat' split
  all_goals rfl

/-- C1: with `armed_at = t0` and `max_duration = 10 s`, a watchdog check at
time `t` triggers the force-kill sequence (throttle to minimum, clear RC
overrides, forced disarm, process exit) exactly when `t - t0 >= 10`; before
arming succeeds (`script_start_time = None`) no check ever triggers. -/
theorem C1_watchdog_kill :
    (∀ now : ℚ, watchdog_check none now = none)
    ∧ (∀ t0 now : ℚ, 10 ≤ now - t0 →
        watchdog_check (some t0) now
          = some [KillAction.setThrottleMin, KillAction.clearRCOverrides,
                  KillAction.forceDisarm, KillAction.exitProcess])
    ∧ (∀ t0 now : ℚ, now - t0 < 10 → watchdog_check (some t0) now = none) := by
  refine ⟨fun now => rfl, fun t0 now hge => ?_, fun t0 now hlt => ?_⟩
  · simp only [watchdog_check, MAX_FLIGHT_TIME]
    rw [if_pos hge]
    rfl
  · simp only [watchdog_check, MAX_FLIGHT_TIME]
    rw [if_neg (not_le.mpr hlt)]

/-- Witness for C1 at the spec's own example points: a check 10.1 s after
arming triggers the kill sequence, a check 9.9 s after does not. -/
theorem C1_watchdog_kill_witness :
    watchdog_check (some 0) 10.1
        = some [KillAction.setThrottleMin, KillAction.clearRCOverrides,
                KillAction.forceDisarm, KillAction.exitProcess]
      ∧ watchdog_check (some 0) 9.9 = none :=
  ⟨C1_watchdog_kill.2.1 0 10.1 (by norm_num), C1_watchdog_kill.2.2 0 9.9 (by norm_num)⟩

/-- C3: the phase/throttle decision is the deterministic three-way split on
`target ± tolerance`, and at target 1.0 m, tolerance 0.1 m the altitudes
0.85 / 0.95 / 1.15 give CLIMBING / HOVERING / DESCENDING with the climb,
hover and land PWM values. -/
theorem C3_phase_decision :
    (∀ alt target tol : ℚ, 0 ≤ tol →
      (alt < target - tol →
        throttle_decision alt target tol = (CLIMB_PWM, ControlMode.CLIMBING))
      ∧ (target + tol < alt →
        throttle_decision alt target tol = (LAND_PWM, ControlMode.DESCENDING))
      ∧ (target - tol ≤ alt → alt ≤ target + tol →
        throttle_decision alt target tol = (HOVER_PWM, ControlMode.HOVERING)))
    ∧ ALTITUDE_TOLERANCE = 0.1
    ∧ throttle_decision 0.85 1 ALTITUDE_TOLERANCE = (CLIMB_PWM, ControlMode.CLIMBING)
    ∧ throttle_decision 0.95 1 ALTITUDE_TOLERANCE = (HOVER_PWM, ControlMode.HOVERING)
    ∧ throttle_decision 1.15 1 ALTITUDE_TOLERANCE = (LAND_PWM, ControlMode.DESCENDING) := by
  refine ⟨fun alt target tol htol => ⟨fun hlo => ?_, fun hhi => ?_, fun h1 h2 => ?_⟩,
    rfl, ?_, ?_, ?_⟩
  · simp only [throttle_decision]
    rw [if_pos hlo]
  · simp only [throttle_decision]
    rw [if_neg (not_lt.mpr (by linarith)), if_pos hhi]
  · simp only [throttle_decision]
    rw [if_neg (not_lt.mpr h1), if_neg (not_lt.mpr h2)]
  · norm_num [throttle_decision, ALTITUDE_TOLERANCE]
  · norm_num [throttle_decision, ALTITUDE_TOLERANCE]
  · norm_num [throttle_decision, ALTITUDE_TOLERANCE]

/-- Witness for C3: the general split applied at the spec's example points. -/
theorem C3_phase_decision_witness :
    throttle_decision 0.85 1 0.1 = (CLIMB_PWM, ControlMode.CLIMBING)
      ∧ throttle_decision 1.15 1 0.1 = (LAND_PWM, ControlMode.DESCENDING)
      ∧ throttle_decision 0.95 1 0.1 = (HOVER_PWM, ControlMode.HOVERING) :=
  ⟨(C3_phase_decision.1 0.85 1 0.1 (by norm_num)).1 (by norm_num),
   (C3_phase_decision.1 1.15 1 0.1 (by norm_num)).2.1 (by norm_num),
   (C3_phase_decision.1 0.95 1 0.1 (by norm_num)).2.2 (by norm_num) (by norm_num)⟩

/-- C7 counterexample: inside the 0.05 m dead band the hover loop commands
velocity 0, not the clamped proportional correction, so the claimed formula
fails at altitude error 0.04 m (target 0.5 m, altitude 0.46 m). -/
theorem C7_counterexample_dead_band :
    hover_velocity_z 0.5 0.46 ≠ clamp (-0.1) 0.1 ((0.5 - 0.46) * (-0.5)) := by
  norm_num [hover_velocity_z, clamp, abs]

/-- C7 amended: the hover-phase command is layered on a neutral (zero
horizontal velocity) command, and its vertical part equals
`clamp(-0.1, 0.1, (target - altitude) * -0.5)` whenever the altitude error
exceeds the 0.05 m dead band; inside the dead band it is 0. -/
theorem C7_hover_correction :
    ∀ target alt : ℚ,
      (hover_ned_command target alt).1 = 0
      ∧ (hover_ned_command target alt).2.1 = 0
      ∧ (0.05 < |target - alt| →
          (hover_ned_command target alt).2.2
            = clamp (-0.1) 0.1 ((target - alt) * (-0.5)))
      ∧ (|target - alt| ≤ 0.05 → (hover_ned_command target alt).2.2 = 0) := by
  intro target alt
  refine ⟨rfl, rfl, fun hband => ?_, fun hband => ?_⟩
  · simp only [hover_ned_command, hover_velocity_z, clamp]
    rw [if_pos hband]
  · simp only [hover_ned_command, hover_velocity_z]
    rw [if_neg (not_lt.mpr hband)]

/-- Witness for C7 at a point outside the dead band (error 0.3 m: the
correction saturates at the -0.1 m/s clamp) and one inside it. -/
theorem C7_hover_correction_witness :
    (hover_ned_command 0.5 0.2).2.2 = clamp (-0.1) 0.1 ((0.5 - 0.2) * (-0.5))
      ∧ (hover_ned_command 0.5 0.48).2.2 = 0 :=
  ⟨(C7_hover_correction 0.5 0.2).2.2.1 (by norm_num [abs]),
   (C7_hover_correction 0.5 0.48).2.2.2 (by norm_num [abs])⟩

/-- C8 counterexample: when the lost-connection exception escapes the stream
loop the script only reports the error and closes the connection; no landing
command is among its reactions. -/
theorem C8_counterexample_no_landing :
    CleanupAction.commandLand ∉ lost_connection_cleanup := by
  decide

/-- C8 amended: a single no-telemetry tick holds the last estimate and is
reported as an ordinary record, not an error; the tick escalates to the fatal
lost-connection condition exactly when the consecutive-gap count exceeds 10
(one tick per second, so more than 10 seconds without data); the escalation
terminates the stream with an error record and a connection close, not a
landing. -/
theorem C8_sample_gap :
    ∀ (st : StreamState) (x : Sample),
      (x.raw = none → st.consecutive_errors + 1 ≤ 10 →
        stream_tick st x
          = (⟨st.filt, st.consecutive_errors + 1⟩,
             TickResult.report st.filt.altitude false))
      ∧ (x.raw = none →
          ((stream_tick st x).2 = TickResult.lostConnection
            ↔ 10 < st.consecutive_errors + 1))
      ∧ (∀ r : ℚ, x.raw = some r →
          (stream_tick st x).2 ≠ TickResult.lostConnection)
      ∧ TICK_PERIOD = 1
      ∧ lost_connection_cleanup
          = [CleanupAction.emitErrorRecord, CleanupAction.closeConnection] := by
  intro st x
  refine ⟨fun hraw hle => ?_, fun hraw => ?_, fun r hraw => ?_, rfl, rfl⟩
  · simp only [stream_tick, hraw]
    rw [if_neg (by omega)]
  · simp only [stream_tick, hraw]
    by_cases hc : 10 < st.consecutive_errors + 1
    · rw [if_pos hc]
      simp [hc]
    · rw [if_neg hc]
      simp [hc]
  · simp [stream_tick, hraw]

/-- Witness for C8: from 3 consecutive gaps a fourth gap tick still emits the
held estimate; from 10 it escalates; a present reading never escalates. -/
theorem C8_sample_gap_witness :
    stream_tick ⟨AltitudeFilter.init, 3⟩ ⟨0, none, 0, 0, 0⟩
        = (⟨AltitudeFilter.init, 4⟩, TickResult.report 0 false)
      ∧ (stream_tick ⟨AltitudeFilter.init, 10⟩ ⟨0, none, 0, 0, 0⟩).2
          = TickResult.lostConnection
      ∧ (stream_tick ⟨AltitudeFilter.init, 10⟩ ⟨0, some 5, 0, 0, 0⟩).2
          ≠ TickResult.lostConnection := by
  refine ⟨?_, ?_, ?_⟩
  · exact (C8_sample_gap ⟨AltitudeFilter.init, 3⟩ ⟨0, none, 0, 0, 0⟩).1 rfl (by decide)
  · exact ((C8_sample_gap ⟨AltitudeFilter.init, 10⟩ ⟨0, none, 0, 0, 0⟩).2.1 rfl).mpr (by decide)
  · exact (C8_sample_gap ⟨AltitudeFilter.init, 10⟩ ⟨0, some 5, 0, 0, 0⟩).2.2.1 5 rfl

theorem runFilter_append (s : AltitudeFilter) (l1 l2 : List Sample) :
    runFilter s (l1 ++ l2) = runFilter (runFilter s l1) l2 := by
  simp [runFilter, List.foldl_append]

/-- C2: the first present reading seeds `home_altitude` and resets the
estimate; home is never re-seeded afterwards (not even by the home reading
itself, or after gaps); and all outputs are relative to that first home:
shifting every raw reading by a constant `c` shifts home by `c` and leaves
the entire output trajectory unchanged. -/
theorem C2_home_seeded_once :
    ∀ pre : List Sample, (∀ x ∈ pre, x.raw = none) →
    ∀ t0 r0 ax ay az : ℚ,
      ((runFilter AltitudeFilter.init pre).update t0 (some r0) ax ay az
          = (0, { altitude := 0, velocity := 0, last_update := some t0,
                  stationary_count := 0, home_altitude := some r0,
                  last_raw_alt := some r0 }))
      ∧ (∀ rest : List Sample,
          (runFilter AltitudeFilter.init
              (pre ++ ⟨t0, some r0, ax, ay, az⟩ :: rest)).home_altitude = some r0)
      ∧ (∀ (c : ℚ) (l : List Sample),
          runOutputs AltitudeFilter.init (l.map (shiftSample c))
            = runOutputs AltitudeFilter.init l)
      ∧ (∀ (c : ℚ) (rest : List Sample),
          (runFilter AltitudeFilter.init
              ((pre ++ ⟨t0, some r0, ax, ay, az⟩ :: rest).map (shiftSample c))).home_altitude
            = some (r0 + c)) := by
  intro pre hpre t0 r0 ax ay az
  have hbase : runFilter AltitudeFilter.init pre = AltitudeFilter.init :=
    runFilter_absent pre hpre _
  have hhome : ∀ rest : List Sample,
      (runFilter AltitudeFilter.init
        (pre ++ ⟨t0, some r0, ax, ay, az⟩ :: rest)).home_altitude = some r0 := by
    intro rest
    rw [runFilter_append, hbase, runFilter_cons, update_seed AltitudeFilter.init rfl]
    exact runFilter_home rest _ r0 rfl
  refine ⟨?_, hhome, ?_, ?_⟩
  · rw [hbase, update_seed AltitudeFilter.init rfl]
    rfl
  · intro c l
    conv_lhs => rw [← shiftState_init c]
    exact runOutputs_shift c l AltitudeFilter.init
  · intro c rest
    conv_lhs => rw [← shiftState_init c]
    rw [runFilter_shift]
    simp [shiftState, hhome rest]

/-- Witness for C2: seeding from an all-absent prefix, then feeding the home
reading 2.0 again later does not re-seed. -/
theorem C2_home_seeded_once_witness :
    (runFilter AltitudeFilter.init [⟨0, none, 0, 0, 0⟩]).update 1 (some 2) 0 0 0
        = (0, { altitude := 0, velocity := 0, last_update := some 1,
                stationary_count := 0, home_altitude := some 2,
                last_raw_alt := some 2 })
      ∧ (runFilter AltitudeFilter.init
          ([⟨0, none, 0, 0, 0⟩] ++ (⟨1, some 2, 0, 0, 0⟩ : Sample)
              :: [⟨2, some 2, 0, 0, 0⟩])).home_altitude = some 2 := by
  have h := C2_home_seeded_once [⟨0, none, 0, 0, 0⟩] (by intro x hx; simp at hx; rw [hx])
    1 2 0 0 0
  exact ⟨h.1, h.2.1 [⟨2, some 2, 0, 0, 0⟩]⟩

/-- C4 counterexample: a rejected spike still overwrites `last_raw_alt` and
`last_sample_time`, so the next normal sample is compared against the spike
(velocity -24.75 m/s, rejected again) and the trajectory differs from the
spike-free one (filtered altitude 0 instead of 7/250). -/
theorem C4_counterexample_spike_bookkeeping :
    (runFilter AltitudeFilter.init
        [⟨0, some 0, 0, 0, 0⟩, ⟨1/2, some 10, 0, 0, 0⟩,
         ⟨9/10, some (1/10), 0, 0, 0⟩]).altitude
      ≠ (runFilter AltitudeFilter.init
        [⟨0, some 0, 0, 0, 0⟩, ⟨9/10, some (1/10), 0, 0, 0⟩]).altitude := by
  norm_num [runFilter, List.foldl, AltitudeFilter.update, AltitudeFilter.init,
    is_stationary, abs]

/-- C4 amended: a sample whose derived instantaneous velocity has magnitude
at least 5 m/s is never blended: the call returns the prior filtered altitude
and leaves `altitude` and `velocity` (and home) unchanged — but it does
update `last_raw_alt` and `last_update` to the spike sample, so the
subsequent trajectory is not in general the spike-free one. -/
theorem C4_spike_rejected :
    ∀ (s : AltitudeFilter) (h lu0 lra0 now r ax ay az : ℚ),
      s.home_altitude = some h → s.last_update = some lu0 →
      s.last_raw_alt = some lra0 →
      (if is_stationary ax ay az then s.stationary_count + 1 else 0) < 3 →
      0 < now - lu0 → now - lu0 < 1 →
      5 ≤ |(r - lra0) / (now - lu0)| →
      (s.update now (some r) ax ay az).1 = s.altitude
      ∧ (s.update now (some r) ax ay az).2.altitude = s.altitude
      ∧ (s.update now (some r) ax ay az).2.velocity = s.velocity
      ∧ (s.update now (some r) ax ay az).2.home_altitude = some h
      ∧ (s.update now (some r) ax ay az).2.last_raw_alt = some r
      ∧ (s.update now (some r) ax ay az).2.last_update = some now := by
  intro s h lu0 lra0 now r ax ay az hs hlu hlra hcnt hdt1 hdt2 hv
  have hu := update_spike s h lu0 lra0 hs hlu hlra now r ax ay az hcnt ⟨hdt1, hdt2⟩ hv
  rw [hu]
  exact ⟨rfl, rfl, rfl, hs, rfl, rfl⟩

/-- Witness for C4: the 20 m/s spike of the counterexample run is rejected
and holds the estimate. -/
theorem C4_spike_rejected_witness :
    ((AltitudeFilter.mk 0 0 (some 0) 0 (some 0) (some 0)).update (1/2)
        (some 10) 0 0 0).1 = 0
      ∧ ((AltitudeFilter.mk 0 0 (some 0) 0 (some 0) (some 0)).update (1/2)
        (some 10) 0 0 0).2.velocity = 0 := by
  have h := C4_spike_rejected ⟨0, 0, some 0, 0, some 0, some 0⟩ 0 0 0 (1/2) 10 0 0 0
    rfl rfl rfl (by norm_num [is_stationary]) (by norm_num) (by norm_num)
    (by norm_num [abs])
  exact ⟨h.1, h.2.2.1⟩

/-- C5: after seeding, an absent reading returns the previous filtered
altitude and leaves every state field unchanged, and a gap of 9 absent ticks
followed by a valid sample resumes from the held state without re-seeding
home. -/
theorem C5_absent_reading_holds :
    ∀ (s : AltitudeFilter) (h : ℚ), s.home_altitude = some h →
      (∀ now ax ay az : ℚ, s.update now none ax ay az = (s.altitude, s))
      ∧ (∀ gaps : List Sample, (∀ x ∈ gaps, x.raw = none) → gaps.length = 9 →
          runFilter s gaps = s
          ∧ ∀ t r ax ay az : ℚ,
              ((runFilter s gaps).update t (some r) ax ay az).2.home_altitude
                = some h) := by
  intro s h hs
  refine ⟨fun now ax ay az => update_absent s now ax ay az, fun gaps hg _ => ?_⟩
  have hrun := runFilter_absent gaps hg s
  exact ⟨hrun, fun t r ax ay az => by
    rw [hrun]; exact update_home s h hs t (some r) ax ay az⟩

/-- Witness for C5: a concrete seeded state survives an absent tick and a
9-tick gap unchanged. -/
theorem C5_absent_reading_holds_witness :
    (AltitudeFilter.mk 1.5 0.25 (some 0) 1 (some 2) (some 3.5)).update 7 none 0 0 0
        = (1.5, AltitudeFilter.mk 1.5 0.25 (some 0) 1 (some 2) (some 3.5))
      ∧ runFilter (AltitudeFilter.mk 1.5 0.25 (some 0) 1 (some 2) (some 3.5))
          (List.replicate 9 ⟨0, none, 0, 0, 0⟩)
        = AltitudeFilter.mk 1.5 0.25 (some 0) 1 (some 2) (some 3.5) := by
  have h := C5_absent_reading_holds ⟨1.5, 0.25, some 0, 1, some 2, some 3.5⟩ 2 rfl
  exact ⟨h.1 7 0 0 0,
    (h.2 (List.replicate 9 ⟨0, none, 0, 0, 0⟩)
      (fun x hx => by rw [List.eq_of_mem_replicate hx]) rfl).1⟩

/-- C6: while the (incremented) stationary counter is at least 3 and the
relative reading is the constant `r`, each call performs the exponential
blend `filtered := filtered * 0.95 + r * 0.05` and zeroes the velocity, so
the error to `r` contracts by exactly 0.95 per tick and decreases
monotonically with the number of ticks. -/
theorem C6_snap_convergence :
    ∀ (s : AltitudeFilter) (h r t ax ay az : ℚ),
      s.home_altitude = some h → is_stationary ax ay az = true →
      2 ≤ s.stationary_count →
      ((s.update t (some (h + r)) ax ay az).2.altitude
          = s.altitude * 0.95 + r * 0.05
        ∧ (s.update t (some (h + r)) ax ay az).2.velocity = 0)
      ∧ |(s.update t (some (h + r)) ax ay az).2.altitude - r|
          = 0.95 * |s.altitude - r|
      ∧ (∀ N : ℕ,
          |(runFilter s (List.replicate N ⟨t, some (h + r), ax, ay, az⟩)).altitude - r|
            = 0.95 ^ N * |s.altitude - r|)
      ∧ (∀ N : ℕ,
          |(runFilter s (List.replicate (N + 1) ⟨t, some (h + r), ax, ay, az⟩)).altitude - r|
            ≤ |(runFilter s (List.replicate N ⟨t, some (h + r), ax, ay, az⟩)).altitude - r|) := by
  intro s h r t ax ay az hs hst hcnt
  have hu := update_snap s h hs t (h + r) ax ay az hst hcnt
  have habs : ∀ N : ℕ,
      |(runFilter s (List.replicate N ⟨t, some (h + r), ax, ay, az⟩)).altitude - r|
        = 0.95 ^ N * |s.altitude - r| := by
    intro N
    rw [(snap_iter t ax ay az hst h r N s hs hcnt).1, abs_mul, abs_pow,
      abs_of_nonneg (by norm_num : (0:ℚ) ≤ 0.95)]
  have e : s.altitude * 0.95 + (h + r - h) * 0.05 - r = 0.95 * (s.altitude - r) := by
    ring
  refine ⟨⟨?_, ?_⟩, ?_, habs, fun N => ?_⟩
  · simp only [hu]
    ring
  · simp only [hu]
  · simp only [hu]
    rw [e, abs_mul, abs_of_nonneg (by norm_num : (0:ℚ) ≤ 0.95)]
  · rw [habs, habs]
    exact mul_le_mul_of_nonneg_right
      (pow_le_pow_of_le_one (by norm_num) (by norm_num) (Nat.le_succ N))
      (abs_nonneg _)

/-- Witness for C6: from altitude 1, counter 2, home 10 and constant relative
reading 3, one stationary tick blends to 1.05 and two ticks give error
(0.95)^2 * 2. -/
theorem C6_snap_convergence_witness :
    ((AltitudeFilter.mk 1 5 (some 0) 2 (some 10) (some 10)).update 0
        (some (10 + 3)) 0 0 9.8).2.altitude = 1 * 0.95 + 3 * 0.05
      ∧ |(runFilter (AltitudeFilter.mk 1 5 (some 0) 2 (some 10) (some 10))
          (List.replicate 2 ⟨0, some (10 + 3), 0, 0, 9.8⟩)).altitude - 3|
          = 0.95 ^ 2 * |1 - 3| := by
  have h := C6_snap_convergence ⟨1, 5, some 0, 2, some 10, some 10⟩ 10 3 0 0 0 9.8
    rfl (by norm_num [is_stationary]) (by norm_num)
  exact ⟨h.1.1, by
    have h2 := h.2.2.1 2
    simpa using h2⟩

/-- C9: with no IMU message the sample defaults to accel (0, 0, 9.8), which
classifies as stationary; so every update with a present reading and absent
IMU data increments the stationary counter, and with counter at least 2
beforehand the call lands in the drift-snap branch: velocity zeroed and the
altitude blended toward the raw relative reading. -/
theorem C9_missing_imu_snap :
    imu_default = (0, 0, 9.8)
    ∧ is_stationary 0 0 9.8 = true
    ∧ (∀ (s : AltitudeFilter) (h now r : ℚ), s.home_altitude = some h →
        ((s.update now (some r) 0 0 9.8).2).stationary_count
          = s.stationary_count + 1)
    ∧ (∀ (s : AltitudeFilter) (h now r : ℚ), s.home_altitude = some h →
        2 ≤ s.stationary_count →
        (s.update now (some r) 0 0 9.8).2.velocity = 0
        ∧ (s.update now (some r) 0 0 9.8).2.altitude
            = s.altitude * 0.95 + (r - h) * 0.05) := by
  have hstat : is_stationary 0 0 9.8 = true := by norm_num [is_stationary]
  refine ⟨rfl, hstat, fun s h now r hs => ?_, fun s h now r hs hcnt => ?_⟩
  · rw [update_count s h hs now r 0 0 9.8, if_pos hstat]
  · have hu := update_snap s h hs now r 0 0 9.8 hstat hcnt
    exact ⟨by simp only [hu], by simp only [hu]⟩

/-- Witness for C9: a seeded state with counter 2 and a default-IMU sample
reaches counter 3, zero velocity and the blended altitude. -/
theorem C9_missing_imu_snap_witness :
    ((AltitudeFilter.mk 1 2 (some 0) 2 (some 5) (some 5)).update 1
        (some 6) 0 0 9.8).2.stationary_count = 3
      ∧ ((AltitudeFilter.mk 1 2 (some 0) 2 (some 5) (some 5)).update 1
        (some 6) 0 0 9.8).2.velocity = 0 := by
  have h := C9_missing_imu_snap
  exact ⟨h.2.2.1 ⟨1, 2, some 0, 2, some 5, some 5⟩ 5 1 6 rfl,
    (h.2.2.2 ⟨1, 2, some 0, 2, some 5, some 5⟩ 5 1 6 rfl (by norm_num)).1⟩

/-- C10: before seeding, an absent reading returns 0.0 and changes nothing
(the state is still the initial one), and the first later present reading is
the one that sets `home_altitude`. -/
theorem C10_preseed_absent_hold :
    ∀ pre : List Sample, (runFilter AltitudeFilter.init pre).home_altitude = none →
      (∀ now ax ay az : ℚ,
        (runFilter AltitudeFilter.init pre).update now none ax ay az
          = (0, runFilter AltitudeFilter.init pre))
      ∧ (∀ now r ax ay az : ℚ,
          ((runFilter AltitudeFilter.init pre).update now (some r)
              ax ay az).2.home_altitude = some r) := by
  intro pre hnone
  have hid := runFilter_init_none pre hnone
  constructor
  · intro now ax ay az
    rw [hid, update_absent]
    rfl
  · intro now r ax ay az
    rw [hid, update_seed AltitudeFilter.init rfl]

/-- Witness for C10: one absent tick from start returns 0 and leaves the
initial state; a following present reading 4.0 seeds home to 4.0. -/
theorem C10_preseed_absent_hold_witness :
    (runFilter AltitudeFilter.init [⟨0, none, 0, 0, 0⟩]).update 1 none 0 0 0
        = (0, runFilter AltitudeFilter.init [⟨0, none, 0, 0, 0⟩])
      ∧ ((runFilter AltitudeFilter.init [⟨0, none, 0, 0, 0⟩]).update 1
          (some 4) 0 0 0).2.home_altitude = some 4 := by
  have h := C10_preseed_absent_hold [⟨0, none, 0, 0, 0⟩] rfl
  exact ⟨h.1 1 0 0 0, h.2 1 4 0 0 0⟩

end ScarecrowDrone
